import Mathlib

/-!
Shallow embedding of the jutella-xmpp bridging core: the XMPP transport
session (src/xmpp.rs), the chatbot engine (src/engine/mod.rs) and the
per-peer chatbot handler (src/engine/handler.rs), together with the message
types of src/message.rs. Channels are modelled as explicit bounded queues,
tracing calls as log effects, and the tokio run loops as folds over a list
of events, one event per fired select arm. Trace logs that merely announce
an immediately following send effect inside the send helpers are elided;
every standalone tracing statement of the processing paths is kept.
-/

namespace Jutella

/-- Severity levels of the tracing statements used in the source. -/
inductive LogLevel where
  | trace
  | debug
  | info
  | warn
  | error
deriving DecidableEq, Repr

/-- Message passed from the XMPP agent to the chatbot, src/message.rs. -/
structure RequestMessage where
  jid : String
  request : String
deriving DecidableEq, Repr

/-- Message passed from the chatbot back to the XMPP agent, src/message.rs. -/
structure ResponseMessage where
  jid : String
  response : String
  tokens_in : Nat
  tokens_in_cached : Option Nat
  tokens_out : Nat
  tokens_reasoning : Option Nat
deriving DecidableEq, Repr

/-- Message types of xmpp_parsers used by src/xmpp.rs. -/
inductive MessageType where
  | chat
  | groupchat
  | normal
  | error
  | headline
deriving DecidableEq, Repr

/-- The parts of an inbound xmpp_parsers message read by process_xmpp_message:
the bare sender address (none when the from field is absent), the message
type, the body at the default empty language key, the names of the payload
elements, and the optional stanza id. -/
structure XmppMessage where
  from_ : Option String
  type_ : MessageType
  body : Option String
  payloads : List String
  id : Option String
deriving DecidableEq, Repr

/-- Observable side effects of the XMPP agent. -/
inductive XmppEffect where
  | log (level : LogLevel) (tag : String)
  | sendMessage (jid : String) (body : String)
  | sendDisplayedMarker (jid : String) (id : String)
  | sendChatState (jid : String) (state : String)
  | sendPresence
  | sendPresenceSubscribed (jid : String)
  | reconnect
deriving DecidableEq, Repr

/-- Requests channel size from src/engine/mod.rs. -/
def REQUESTS_CHANNEL_SIZE : Nat := 10

/-- Responses channel size from src/xmpp.rs. -/
def RESPONSES_CHANNEL_SIZE : Nat := 1024

/-- State of the Xmpp agent of src/xmpp.rs: the key set of request_txs_map
(the allow-list), the contents of the bounded requests channel the senders
of the map feed (with its capacity and closed flag), the contents of the
bounded responses channel, the key set of the pending_composing stream map,
and the online and clogged_engine flags. -/
structure XmppState where
  allowed_jids : List String
  request_queue : List RequestMessage
  request_capacity : Nat
  request_closed : Bool
  response_queue : List ResponseMessage
  pending_composing : List String
  online : Bool
  clogged_engine : Bool
deriving DecidableEq, Repr

/-- Result of one processing call of the Xmpp agent: the successor state,
the effects emitted, and the error message when the Rust function returns
an Err that terminates the run loop. -/
structure XmppStep where
  state : XmppState
  effects : List XmppEffect
  failure : Option String
deriving DecidableEq, Repr

/-- StreamMap insert of schedule_pending_composing, modelled on the key
set: inserting an existing key replaces its timer, so the key set gains the
key when absent. -/
def schedule_pending_composing (l : List String) (jid : String) : List String :=
  if jid ∈ l then l else l ++ [jid]

/-- Shallow model of the external BareJid parser used defensively in
src/xmpp.rs: an address parses exactly when it contains an at sign. Every
concrete address appearing in this development parses. -/
def bareJid_new (s : String) : Option String :=
  if s.data.contains '@' then some s else none

/-- Embedding of Xmpp::process_xmpp_message, src/xmpp.rs lines 152 to 231.
The try_send on the requests channel reports closed before full, enqueues
when the queue is below capacity and drops the item otherwise. -/
def Xmpp.process_xmpp_message (s : XmppState) (m : XmppMessage) : XmppStep :=
  match m.from_ with
  | none => ⟨s, [XmppEffect.log LogLevel.trace "xmpp message without from field"], none⟩
  | some jid =>
    if jid ∈ s.allowed_jids then
      if m.type_ = MessageType.chat then
        match m.body with
        | none => ⟨s, [XmppEffect.log LogLevel.trace "chat message without a body"], none⟩
        | some body =>
          if m.payloads.contains "encrypted" then
            ⟨s, [XmppEffect.log LogLevel.debug "encrypted message",
                 XmppEffect.sendMessage jid "[ERROR] Encrypted messages are not supported"],
             none⟩
          else
            if s.request_closed then
              ⟨s, [XmppEffect.log LogLevel.debug "request"],
               some "requests channel closed, terminating"⟩
            else if s.request_queue.length < s.request_capacity then
              ⟨{ s with
                   request_queue := s.request_queue ++ [⟨jid, body⟩],
                   pending_composing := schedule_pending_composing s.pending_composing jid },
               [XmppEffect.log LogLevel.debug "request"] ++
                 (match m.id with
                  | some i => [XmppEffect.sendDisplayedMarker jid i]
                  | none => []),
               none⟩
            else
              if s.clogged_engine then
                ⟨s, [XmppEffect.log LogLevel.debug "request"], none⟩
              else
                ⟨{ s with clogged_engine := true },
                 [XmppEffect.log LogLevel.debug "request",
                  XmppEffect.log LogLevel.error "requests channel clogged"],
                 none⟩
      else
        ⟨s, [XmppEffect.log LogLevel.warn "not a chat message received"], none⟩
    else
      ⟨s, [XmppEffect.log LogLevel.trace "message from unknown user"], none⟩

/-- Embedding of Xmpp::process_response, src/xmpp.rs lines 122 to 150:
drop the pending composing timer of the peer, send the active chat state
and then the response text as a chat message. -/
def Xmpp.process_response (s : XmppState) (resp : ResponseMessage) :
    XmppState × List XmppEffect :=
  match bareJid_new resp.jid with
  | none =>
    (s, [XmppEffect.log LogLevel.debug "response",
         XmppEffect.log LogLevel.error "failed to convert to BareJid"])
  | some bare =>
    ({ s with pending_composing := s.pending_composing.filter (fun j => j ≠ bare) },
     [XmppEffect.log LogLevel.debug "response",
      XmppEffect.sendChatState bare "active",
      XmppEffect.sendMessage bare resp.response])

/-- Effects of pre_approve_presence_subscriptions, src/xmpp.rs lines 306
to 330, one per allow-listed user. -/
def pre_approve_presence_subscriptions (allowed : List String) : List XmppEffect :=
  allowed.map (fun jid =>
    match bareJid_new jid with
    | some bare => XmppEffect.sendPresenceSubscribed bare
    | none => XmppEffect.log LogLevel.error "cannot construct BareJid")

/-- Effects of send_initial_chat_state_active, src/xmpp.rs lines 332 to
344, one per allow-listed user. -/
def send_initial_chat_state_active (allowed : List String) : List XmppEffect :=
  allowed.map (fun jid =>
    match bareJid_new jid with
    | some bare => XmppEffect.sendChatState bare "active"
    | none => XmppEffect.log LogLevel.error "cannot construct BareJid")

/-- One firing of a select arm of Xmpp::run, src/xmpp.rs lines 391 to 428,
or one transport event processed by process_xmpp_event, lines 346 to 379. -/
inductive XmppEvent where
  | connected
  | disconnected
  | stanza (m : XmppMessage)
  | responseDelivery
  | responseChannelClosed
  | presenceTick
  | composingFired (jid : String)
  | streamClosed
deriving DecidableEq, Repr

/-- Result of one run loop iteration of the Xmpp agent; the outcome is set
when run returns. -/
structure XmppRunStep where
  state : XmppState
  effects : List XmppEffect
  outcome : Option (Except String Unit)
deriving Repr

/-- One iteration of the Xmpp::run select loop. The response channel arm is
guarded by the online flag exactly as in the source: while offline it is
not polled and queued responses stay in the channel. Arms whose guard does
not hold are modelled as no-ops since the scheduler cannot fire them. -/
def Xmpp.step (s : XmppState) (ev : XmppEvent) : XmppRunStep :=
  match ev with
  | XmppEvent.connected =>
    ⟨{ s with online := true },
     [XmppEffect.log LogLevel.info "connected to XMPP server"] ++
       pre_approve_presence_subscriptions s.allowed_jids ++
       [XmppEffect.sendPresence] ++
       send_initial_chat_state_active s.allowed_jids,
     none⟩
  | XmppEvent.disconnected =>
    if s.online then
      ⟨{ s with online := false },
       [XmppEffect.log LogLevel.error "disconnected from XMPP server, reconnecting",
        XmppEffect.reconnect],
       none⟩
    else
      ⟨s, [XmppEffect.reconnect], none⟩
  | XmppEvent.stanza m =>
    let r := Xmpp.process_xmpp_message s m
    ⟨r.state, r.effects, r.failure.map Except.error⟩
  | XmppEvent.responseDelivery =>
    if s.online then
      match s.response_queue with
      | [] => ⟨s, [], none⟩
      | resp :: rest =>
        let r := Xmpp.process_response { s with response_queue := rest } resp
        ⟨r.1, r.2, none⟩
    else
      ⟨s, [], none⟩
  | XmppEvent.responseChannelClosed =>
    if s.online then
      ⟨s, [XmppEffect.log LogLevel.trace "response channel closed, shutting down"],
       some (Except.ok ())⟩
    else
      ⟨s, [], none⟩
  | XmppEvent.presenceTick =>
    if s.online then ⟨s, [XmppEffect.sendPresence], none⟩ else ⟨s, [], none⟩
  | XmppEvent.composingFired jid =>
    if jid ∈ s.pending_composing then
      ⟨{ s with pending_composing := s.pending_composing.filter (fun j => j ≠ jid) },
       [XmppEffect.sendChatState jid "composing"], none⟩
    else
      ⟨s, [], none⟩
  | XmppEvent.streamClosed =>
    ⟨s, [], some (Except.error "XMPP event stream was closed, terminating")⟩

/-- The Xmpp::run loop folded over a list of fired events: accumulates the
emitted effects and stops at the first iteration that returns. -/
def Xmpp.run (s : XmppState) :
    List XmppEvent → List XmppEffect × Option (Except String Unit)
  | [] => ([], none)
  | ev :: rest =>
    let st := Xmpp.step s ev
    match st.outcome with
    | some out => (st.effects, some out)
    | none =>
      let r := Xmpp.run st.state rest
      (st.effects ++ r.1, r.2)

/-- A bounded per-peer requests channel of the engine registry. -/
structure PeerChannel where
  queue : List RequestMessage
  closed : Bool
deriving DecidableEq, Repr

/-- State of ChatbotEngine, src/engine/mod.rs: the request_txs registry
from peer jid to the per-peer requests channel, and the jids of the running
handler tasks in handlers_futures. -/
structure EngineState where
  request_txs : List (String × PeerChannel)
  handlers : List String
deriving DecidableEq, Repr

/-- Observable side effects of the engine. -/
inductive EngineEffect where
  | log (level : LogLevel) (tag : String)
deriving DecidableEq, Repr

/-- Update the channel stored under a jid in the registry. -/
def updateChannel (l : List (String × PeerChannel)) (jid : String)
    (f : PeerChannel → PeerChannel) : List (String × PeerChannel) :=
  l.map (fun p => if p.1 = jid then (p.1, f p.2) else p)

/-- The try_send of ChatbotEngine::handle_request, src/engine/mod.rs lines
129 to 147, on the channel found in the registry for the target peer:
closed logs an error and drops, full logs the clogged message at debug
level and drops, otherwise the request is appended. -/
def engineTrySend (s : EngineState) (request : RequestMessage) (ch : PeerChannel)
    (fx : List EngineEffect) : EngineState × List EngineEffect :=
  if ch.closed then
    (s, fx ++ [EngineEffect.log LogLevel.error
               "chat instance requests channel closed. this is a bug"])
  else if ch.queue.length < REQUESTS_CHANNEL_SIZE then
    ({ s with request_txs := updateChannel s.request_txs request.jid
                (fun c => { c with queue := c.queue ++ [request] }) },
     fx)
  else
    (s, fx ++ [EngineEffect.log LogLevel.debug "chat instance requests channel clogged"])

/-- Embedding of ChatbotEngine::handle_request, src/engine/mod.rs lines 89
to 148. Whether create_handler succeeds is passed in as create_ok, since
its failure condition lives in the external completion client constructor.
On construction success the handler task and a fresh channel are
registered before the try_send; on failure the request is dropped. -/
def ChatbotEngine.handle_request (create_ok : Bool) (s : EngineState)
    (request : RequestMessage) : EngineState × List EngineEffect :=
  match s.request_txs.lookup request.jid with
  | some ch => engineTrySend s request ch []
  | none =>
    if create_ok then
      engineTrySend
        { request_txs := s.request_txs ++ [(request.jid, ⟨[], false⟩)],
          handlers := s.handlers ++ [request.jid] }
        request ⟨[], false⟩
        [EngineEffect.log LogLevel.info "initialized chat instance"]
    else
      (s, [EngineEffect.log LogLevel.error "failed to create chat instance"])

/-- One firing of a select arm of ChatbotEngine::run, src/engine/mod.rs
lines 150 to 176: a handler task ending with the given failure (none for
an Ok completion), an inbound request (with the construction oracle for a
possibly needed new handler), or the shared request channel closing. -/
inductive EngineEvent where
  | handlerEnded (jid : String) (failure : Option String)
  | request (create_ok : Bool) (request : RequestMessage)
  | requestChannelClosed
deriving DecidableEq, Repr

/-- The ChatbotEngine::run loop folded over a list of fired events. The
select pattern on handlers_futures matches only an Err completion: an
actor ending with Ok fails the pattern, so its finished task is removed
from the set and the loop continues. -/
def ChatbotEngine.run (s : EngineState) :
    List EngineEvent → List EngineEffect × Option (Except String Unit)
  | [] => ([], none)
  | EngineEvent.handlerEnded jid fail? :: rest =>
    match fail? with
    | some e =>
      ([EngineEffect.log LogLevel.error
         "terminating engine, one of the chat handlers terminated with error"],
       some (Except.error e))
    | none =>
      ChatbotEngine.run { s with handlers := s.handlers.erase jid } rest
  | EngineEvent.request create_ok req :: rest =>
    let r := ChatbotEngine.handle_request create_ok s req
    let r2 := ChatbotEngine.run r.1 rest
    (r.2 ++ r2.1, r2.2)
  | EngineEvent.requestChannelClosed :: _ =>
    ([EngineEffect.log LogLevel.debug "request channel terminated, terminating ChatbotEngine"],
     some (Except.ok ()))

/-- Token usage counters of a completion, mirroring the jutella client
types used in src/engine/handler.rs. -/
structure TokenUsage where
  tokens_in : Nat
  tokens_in_cached : Option Nat
  tokens_out : Nat
  tokens_reasoning : Option Nat
deriving DecidableEq, Repr

/-- A successful completion of the external chat client. -/
structure Completion where
  response : String
  reasoning : Option String
  token_usage : TokenUsage
deriving DecidableEq, Repr

/-- State of ChatbotHandler, src/engine/handler.rs: the configured peer jid
and the clogged flag. -/
structure HandlerState where
  jid : String
  clogged : Bool
deriving DecidableEq, Repr

/-- The bounded responses channel the handler sends into. -/
structure ResponseChannel where
  queue : List ResponseMessage
  closed : Bool
deriving DecidableEq, Repr

/-- Observable side effects of the handler; completionCall records one
invocation of the external completion client. -/
inductive HandlerEffect where
  | log (level : LogLevel) (tag : String)
  | completionCall (request : String)
deriving DecidableEq, Repr

/-- Result of one ChatbotHandler::handle_request call: handler state,
responses channel, effects, and the error message when the Rust function
returns Err (which aborts the handler run loop). -/
structure HandlerStep where
  handler : HandlerState
  channel : ResponseChannel
  effects : List HandlerEffect
  failure : Option String
deriving DecidableEq, Repr

/-- Embedding of ChatbotHandler::handle_request, src/engine/handler.rs
lines 109 to 178. The outcome of the external request_completion call is
passed in as the completion oracle; an Err outcome is replaced in place by
the synthesized error completion of lines 137 to 151. -/
def ChatbotHandler.handle_request (completion : Except String Completion)
    (h : HandlerState) (ch : ResponseChannel) (req : RequestMessage) : HandlerStep :=
  if req.jid = h.jid then
    let comp :=
      match completion with
      | Except.ok c => c
      | Except.error e =>
        { response := "[ERROR] " ++ e
          reasoning := none
          token_usage :=
            { tokens_in := 0, tokens_in_cached := none,
              tokens_out := 0, tokens_reasoning := none } }
    let fx :=
      match completion with
      | Except.ok _ => [HandlerEffect.completionCall req.request]
      | Except.error _ =>
        [HandlerEffect.completionCall req.request,
         HandlerEffect.log LogLevel.warn "error from chatbot API"]
    let resp : ResponseMessage :=
      { jid := req.jid
        response := comp.response
        tokens_in := comp.token_usage.tokens_in
        tokens_in_cached := comp.token_usage.tokens_in_cached
        tokens_out := comp.token_usage.tokens_out
        tokens_reasoning := comp.token_usage.tokens_reasoning }
    if ch.closed then
      ⟨h, ch, fx, some "responses channel closed"⟩
    else if ch.queue.length < RESPONSES_CHANNEL_SIZE then
      ⟨h, { ch with queue := ch.queue ++ [resp] }, fx, none⟩
    else
      if h.clogged then
        ⟨h, ch, fx, none⟩
      else
        ⟨{ h with clogged := true }, ch,
         fx ++ [HandlerEffect.log LogLevel.error "responses channel clogged"], none⟩
  else
    ⟨h, ch,
     [HandlerEffect.log LogLevel.error
       "received jid does not match configured jid, this is a bug"],
     some "jid mismatch in request handler"⟩

/-- The ChatbotHandler::run loop, src/engine/handler.rs lines 180 to 188,
folded over the incoming requests paired with the completion outcome of
each: stops with the error of the first failing handle_request; an
exhausted input list models the closed request channel and the clean Ok
exit. -/
def ChatbotHandler.run (h : HandlerState) (ch : ResponseChannel) :
    List (RequestMessage × Except String Completion) →
      HandlerState × ResponseChannel × List HandlerEffect × Option String
  | [] => (h, ch, [], none)
  | (req, completion) :: rest =>
    let st := ChatbotHandler.handle_request completion h ch req
    match st.failure with
    | some e => (st.handler, st.channel, st.effects, some e)
    | none =>
      let r := ChatbotHandler.run st.handler st.channel rest
      (r.1, r.2.1, st.effects ++ r.2.2.1, r.2.2.2)

/-- A sample transport session state with one allow-listed peer. -/
def sampleState : XmppState :=
  { allowed_jids := ["a@x"], request_queue := [], request_capacity := REQUESTS_CHANNEL_SIZE,
    request_closed := false, response_queue := [], pending_composing := [],
    online := true, clogged_engine := false }

/-- A chat message from a peer outside the allow-list of sampleState. -/
def msgUnknown : XmppMessage :=
  { from_ := some "b@y", type_ := MessageType.chat, body := some "hello",
    payloads := [], id := none }

/-- A chat message carrying no sender field. -/
def msgNoFrom : XmppMessage :=
  { from_ := none, type_ := MessageType.chat, body := some "hello",
    payloads := [], id := none }

/-- A handler configured for peer a at x, not yet clogged. -/
def handlerA : HandlerState := { jid := "a@x", clogged := false }

/-- An empty open responses channel. -/
def emptyRespCh : ResponseChannel := { queue := [], closed := false }

/-- A well-routed request for handlerA. -/
def reqHello : RequestMessage := { jid := "a@x", request := "hello" }

/-- A misrouted request whose jid differs from the one of handlerA. -/
def reqWrong : RequestMessage := { jid := "b@y", request := "hello" }

/-- C1: an inbound message whose bare sender address is not a key of the
per-peer request sender map is processed with no effect regardless of its
content and of the connection state: the session state (queues, pending
composing timers, flags) is unchanged, no send or marker effect is
emitted, processing succeeds, and the only effect is one trace log. -/
theorem c1_unknown_sender_ignored (s : XmppState) (m : XmppMessage) (jid : String)
    (hfrom : m.from_ = some jid) (hallow : jid ∉ s.allowed_jids) :
    Xmpp.process_xmpp_message s m =
      ⟨s, [XmppEffect.log LogLevel.trace "message from unknown user"], none⟩ := by
  simp [Xmpp.process_xmpp_message, hfrom, hallow]

/-- Witness for C1 at a concrete non-allow-listed sender. -/
theorem c1_unknown_sender_ignored_witness :
    msgUnknown.from_ = some "b@y" ∧ "b@y" ∉ sampleState.allowed_jids ∧
    Xmpp.process_xmpp_message sampleState msgUnknown =
      ⟨sampleState, [XmppEffect.log LogLevel.trace "message from unknown user"], none⟩ :=
  ⟨rfl, by decide,
   c1_unknown_sender_ignored sampleState msgUnknown "b@y" rfl (by decide)⟩

/-- C10: an inbound message with no from field is processed successfully
with no observable effect: the session state is unchanged and the only
effect is one trace log. -/
theorem c10_missing_from_ignored (s : XmppState) (m : XmppMessage)
    (h : m.from_ = none) :
    Xmpp.process_xmpp_message s m =
      ⟨s, [XmppEffect.log LogLevel.trace "xmpp message without from field"], none⟩ := by
  simp [Xmpp.process_xmpp_message, h]

/-- Witness for C10 at a concrete message without a sender. -/
theorem c10_missing_from_ignored_witness :
    msgNoFrom.from_ = none ∧
    Xmpp.process_xmpp_message sampleState msgNoFrom =
      ⟨sampleState, [XmppEffect.log LogLevel.trace "xmpp message without from field"], none⟩ :=
  ⟨rfl, c10_missing_from_ignored sampleState msgNoFrom rfl⟩

/-- C2: when the completion call fails, the handler does not propagate the
error: handle_request succeeds and appends exactly one response for the
peer whose text is the literal ERROR marker followed by the error detail,
with zero input and output token counters and no cached or reasoning
counts. -/
theorem c2_completion_error_in_band (h : HandlerState) (ch : ResponseChannel)
    (req : RequestMessage) (e : String) (hjid : req.jid = h.jid)
    (hopen : ch.closed = false) (hroom : ch.queue.length < RESPONSES_CHANNEL_SIZE) :
    ChatbotHandler.handle_request (Except.error e) h ch req =
      ⟨h,
       { ch with queue := ch.queue ++
           [{ jid := req.jid, response := "[ERROR] " ++ e, tokens_in := 0,
              tokens_in_cached := none, tokens_out := 0, tokens_reasoning := none }] },
       [HandlerEffect.completionCall req.request,
        HandlerEffect.log LogLevel.warn "error from chatbot API"],
       none⟩ := by
  simp [ChatbotHandler.handle_request, hjid, hopen, hroom]

/-- Witness for C2 at a concrete failing completion. -/
theorem c2_completion_error_in_band_witness :
    reqHello.jid = handlerA.jid ∧ emptyRespCh.closed = false ∧
    emptyRespCh.queue.length < RESPONSES_CHANNEL_SIZE ∧
    ChatbotHandler.handle_request (Except.error "timeout") handlerA emptyRespCh reqHello =
      ⟨handlerA,
       { emptyRespCh with queue := emptyRespCh.queue ++
           [{ jid := reqHello.jid, response := "[ERROR] " ++ "timeout", tokens_in := 0,
              tokens_in_cached := none, tokens_out := 0, tokens_reasoning := none }] },
       [HandlerEffect.completionCall reqHello.request,
        HandlerEffect.log LogLevel.warn "error from chatbot API"],
       none⟩ :=
  ⟨rfl, rfl, by decide,
   c2_completion_error_in_band handlerA emptyRespCh reqHello "timeout" rfl rfl (by decide)⟩

/-- C9: a request whose jid differs from the configured jid of the handler
neither invokes the completion client nor enqueues any response: the
handler and channel are unchanged, the only effect is one error log, and
handle_request returns an error, so the run loop of the actor aborts with
that error at this request. -/
theorem c9_jid_mismatch_fatal (completion : Except String Completion)
    (h : HandlerState) (ch : ResponseChannel) (req : RequestMessage)
    (rest : List (RequestMessage × Except String Completion))
    (hne : req.jid ≠ h.jid) :
    ChatbotHandler.handle_request completion h ch req =
      ⟨h, ch,
       [HandlerEffect.log LogLevel.error
         "received jid does not match configured jid, this is a bug"],
       some "jid mismatch in request handler"⟩ ∧
    ChatbotHandler.run h ch ((req, completion) :: rest) =
      (h, ch,
       [HandlerEffect.log LogLevel.error
         "received jid does not match configured jid, this is a bug"],
       some "jid mismatch in request handler") := by
  have h1 : ChatbotHandler.handle_request completion h ch req =
      ⟨h, ch,
       [HandlerEffect.log LogLevel.error
         "received jid does not match configured jid, this is a bug"],
       some "jid mismatch in request handler"⟩ := by
    simp [ChatbotHandler.handle_request, hne]
  exact ⟨h1, by simp [ChatbotHandler.run, h1]⟩

/-- Witness for C9 at a concrete misrouted request. -/
theorem c9_jid_mismatch_fatal_witness :
    reqWrong.jid ≠ handlerA.jid ∧
    ChatbotHandler.run handlerA emptyRespCh [(reqWrong, Except.error "timeout")] =
      (handlerA, emptyRespCh,
       [HandlerEffect.log LogLevel.error
         "received jid does not match configured jid, this is a bug"],
       some "jid mismatch in request handler") :=
  ⟨by decide,
   (c9_jid_mismatch_fatal (Except.error "timeout") handlerA emptyRespCh reqWrong []
     (by decide)).2⟩

/-- An engine with no registered peers. -/
def emptyEngine : EngineState := { request_txs := [], handlers := [] }

/-- An engine whose single peer channel is closed. -/
def closedChanEngine : EngineState :=
  { request_txs := [("a@x", { queue := [], closed := true })], handlers := ["a@x"] }

/-- An engine with one running handler and an open empty peer channel. -/
def oneHandlerEngine : EngineState :=
  { request_txs := [("a@x", { queue := [], closed := false })], handlers := ["a@x"] }

/-- An engine whose single peer channel is full, at capacity ten. -/
def fullChanEngine : EngineState :=
  { request_txs :=
      [("a@x", { queue := List.replicate REQUESTS_CHANNEL_SIZE { jid := "a@x", request := "r" },
                 closed := false })],
    handlers := ["a@x"] }

/-- C8: construction failure for a first-seen peer does not terminate the
engine: handle_request drops the request leaving the registry and the set
of running handlers unchanged, the run loop merely logs and continues on
the remaining events, and the registry still has no entry for the peer, so
the next request from the same peer attempts construction again. -/
theorem c8_construction_failure_recoverable (s : EngineState) (req : RequestMessage)
    (rest : List EngineEvent) (hnew : s.request_txs.lookup req.jid = none) :
    ChatbotEngine.handle_request false s req =
      (s, [EngineEffect.log LogLevel.error "failed to create chat instance"]) ∧
    ChatbotEngine.run s (EngineEvent.request false req :: rest) =
      (EngineEffect.log LogLevel.error "failed to create chat instance" ::
         (ChatbotEngine.run s rest).1,
       (ChatbotEngine.run s rest).2) ∧
    (ChatbotEngine.handle_request false s req).1.request_txs.lookup req.jid = none := by
  have h1 : ChatbotEngine.handle_request false s req =
      (s, [EngineEffect.log LogLevel.error "failed to create chat instance"]) := by
    simp [ChatbotEngine.handle_request, hnew]
  refine ⟨h1, ?_, by rw [h1]; exact hnew⟩
  simp [ChatbotEngine.run, h1]

/-- Witness for C8 at a concrete empty engine. -/
theorem c8_construction_failure_recoverable_witness :
    emptyEngine.request_txs.lookup reqHello.jid = none ∧
    (ChatbotEngine.handle_request false emptyEngine reqHello =
       (emptyEngine, [EngineEffect.log LogLevel.error "failed to create chat instance"]) ∧
     ChatbotEngine.run emptyEngine [EngineEvent.request false reqHello] =
       (EngineEffect.log LogLevel.error "failed to create chat instance" ::
          (ChatbotEngine.run emptyEngine []).1,
        (ChatbotEngine.run emptyEngine []).2) ∧
     (ChatbotEngine.handle_request false emptyEngine
        reqHello).1.request_txs.lookup reqHello.jid = none) :=
  ⟨rfl, c8_construction_failure_recoverable emptyEngine reqHello [] rfl⟩

/-- C5 counterexample: at a concrete engine whose per-peer queue is
closed, submitting a request produces only an error log and the run loop
does not terminate (the outcome stays none), refuting that the closed
queue is surfaced as a run-level error. -/
theorem c5_counterexample :
    ChatbotEngine.run closedChanEngine [EngineEvent.request true reqHello] =
      ([EngineEffect.log LogLevel.error
          "chat instance requests channel closed. this is a bug"],
       none) := by
  rfl

/-- C5 amended: a per-peer queue found closed during submit is logged at
error severity as a bug and the message is dropped; the run loop of the
engine is not terminated by the submit path and continues on the remaining
events. -/
theorem c5_amended_closed_queue_logged (create_ok : Bool) (s : EngineState)
    (req : RequestMessage) (ch : PeerChannel) (rest : List EngineEvent)
    (hch : s.request_txs.lookup req.jid = some ch) (hclosed : ch.closed = true) :
    ChatbotEngine.handle_request create_ok s req =
      (s, [EngineEffect.log LogLevel.error
            "chat instance requests channel closed. this is a bug"]) ∧
    ChatbotEngine.run s (EngineEvent.request create_ok req :: rest) =
      (EngineEffect.log LogLevel.error
         "chat instance requests channel closed. this is a bug" ::
         (ChatbotEngine.run s rest).1,
       (ChatbotEngine.run s rest).2) := by
  have h1 : ChatbotEngine.handle_request create_ok s req =
      (s, [EngineEffect.log LogLevel.error
            "chat instance requests channel closed. this is a bug"]) := by
    simp [ChatbotEngine.handle_request, hch, engineTrySend, hclosed]
  exact ⟨h1, by simp [ChatbotEngine.run, h1]⟩

/-- Witness for the amended C5 at a concrete closed channel. -/
theorem c5_amended_closed_queue_logged_witness :
    closedChanEngine.request_txs.lookup reqHello.jid = some ⟨[], true⟩ ∧
    ChatbotEngine.handle_request true closedChanEngine reqHello =
      (closedChanEngine,
       [EngineEffect.log LogLevel.error
          "chat instance requests channel closed. this is a bug"]) :=
  ⟨rfl,
   (c5_amended_closed_queue_logged true closedChanEngine reqHello ⟨[], true⟩ []
      rfl rfl).1⟩

/-- C4 counterexample: at a concrete engine whose single running actor
task ends with success, the run loop neither terminates nor propagates the
outcome: the run over that event yields no effects and no outcome. -/
theorem c4_counterexample :
    ChatbotEngine.run oneHandlerEngine [EngineEvent.handlerEnded "a@x" none] =
      ([], none) := by
  rfl

/-- C4 amended: the select pattern of the engine run loop matches only
failing actor tasks: if any running actor task ends with failure the run
loop terminates propagating that error, while an actor task ending with
success is removed from the running set and the loop continues. -/
theorem c4_amended_only_failure_terminates (s : EngineState) (jid e : String)
    (rest : List EngineEvent) :
    ChatbotEngine.run s (EngineEvent.handlerEnded jid (some e) :: rest) =
      ([EngineEffect.log LogLevel.error
          "terminating engine, one of the chat handlers terminated with error"],
       some (Except.error e)) ∧
    ChatbotEngine.run s (EngineEvent.handlerEnded jid none :: rest) =
      ChatbotEngine.run { s with handlers := s.handlers.erase jid } rest := by
  constructor <;> simp [ChatbotEngine.run]

/-- C3 counterexample: at a concrete full per-peer engine queue, two
consecutive drops in the same saturation episode (the state is unchanged
by the first drop) each emit a clogged log event, refuting that every
enqueue site logs saturation at most once per episode. -/
theorem c3_counterexample :
    ChatbotEngine.handle_request true fullChanEngine reqHello =
      (fullChanEngine,
       [EngineEffect.log LogLevel.debug "chat instance requests channel clogged"]) ∧
    ChatbotEngine.handle_request true
        (ChatbotEngine.handle_request true fullChanEngine reqHello).1 reqHello =
      (fullChanEngine,
       [EngineEffect.log LogLevel.debug "chat instance requests channel clogged"]) := by
  constructor <;> rfl

/-- C3 amended: a full bounded queue always drops the item and leaves the
queue contents unchanged, but the logging discipline differs per site: the
transport session site and the actor site log the saturation only when
their sticky clogged flag is unset (the flag is set then and reset only by
process restart), while the engine per-peer submit site emits a debug
clogged log on every dropped item. -/
theorem c3_amended_saturation_logging
    (s : XmppState) (m : XmppMessage) (jid body : String)
    (hfrom : m.from_ = some jid) (hmem : jid ∈ s.allowed_jids)
    (htype : m.type_ = MessageType.chat) (hbody : m.body = some body)
    (henc : m.payloads.contains "encrypted" = false)
    (hopen : s.request_closed = false)
    (hfull : ¬ s.request_queue.length < s.request_capacity)
    (hh : HandlerState) (ch : ResponseChannel) (req : RequestMessage) (c : Completion)
    (hjid : req.jid = hh.jid) (hchopen : ch.closed = false)
    (hchfull : ¬ ch.queue.length < RESPONSES_CHANNEL_SIZE)
    (es : EngineState) (ech : PeerChannel) (ereq : RequestMessage) (create_ok : Bool)
    (hlk : es.request_txs.lookup ereq.jid = some ech) (hecl : ech.closed = false)
    (hefull : ¬ ech.queue.length < REQUESTS_CHANNEL_SIZE) :
    (s.clogged_engine = false →
      Xmpp.process_xmpp_message s m =
        ⟨{ s with clogged_engine := true },
         [XmppEffect.log LogLevel.debug "request",
          XmppEffect.log LogLevel.error "requests channel clogged"], none⟩) ∧
    (s.clogged_engine = true →
      Xmpp.process_xmpp_message s m =
        ⟨s, [XmppEffect.log LogLevel.debug "request"], none⟩) ∧
    (hh.clogged = false →
      ChatbotHandler.handle_request (Except.ok c) hh ch req =
        ⟨{ hh with clogged := true }, ch,
         [HandlerEffect.completionCall req.request,
          HandlerEffect.log LogLevel.error "responses channel clogged"], none⟩) ∧
    (hh.clogged = true →
      ChatbotHandler.handle_request (Except.ok c) hh ch req =
        ⟨hh, ch, [HandlerEffect.completionCall req.request], none⟩) ∧
    ChatbotEngine.handle_request create_ok es ereq =
      (es, [EngineEffect.log LogLevel.debug "chat instance requests channel clogged"]) := by
  have henc2 : "encrypted" ∉ m.payloads := by simpa using henc
  refine ⟨?_, ?_, ?_, ?_, ?_⟩
  · intro hcl
    simp [Xmpp.process_xmpp_message, hfrom, hmem, htype, hbody, henc2, hopen, hfull, hcl]
  · intro hcl
    simp [Xmpp.process_xmpp_message, hfrom, hmem, htype, hbody, henc2, hopen, hfull, hcl]
  · intro hcl
    simp [ChatbotHandler.handle_request, hjid, hchopen, hchfull, hcl]
  · intro hcl
    simp [ChatbotHandler.handle_request, hjid, hchopen, hchfull, hcl]
  · simp [ChatbotEngine.handle_request, hlk, engineTrySend, hecl, hefull]

/-- An allow-listed chat message with body hello and no payloads. -/
def msgHello : XmppMessage :=
  { from_ := some "a@x", type_ := MessageType.chat, body := some "hello",
    payloads := [], id := none }

/-- A transport session state whose shared requests channel is full at
capacity one. -/
def fullReqState : XmppState :=
  { allowed_jids := ["a@x"], request_queue := [reqHello], request_capacity := 1,
    request_closed := false, response_queue := [], pending_composing := [],
    online := true, clogged_engine := false }

/-- A sample response for peer a at x. -/
def respHi : ResponseMessage :=
  { jid := "a@x", response := "hi", tokens_in := 5, tokens_in_cached := none,
    tokens_out := 3, tokens_reasoning := none }

/-- A responses channel full at its capacity. -/
def fullRespCh : ResponseChannel :=
  { queue := List.replicate RESPONSES_CHANNEL_SIZE respHi, closed := false }

/-- A successful completion fixture. -/
def okCompletion : Completion :=
  { response := "hi", reasoning := none,
    token_usage := { tokens_in := 5, tokens_in_cached := none,
                     tokens_out := 3, tokens_reasoning := none } }

/-- Witness for the amended C3 at concrete full queues of all three
sites. -/
theorem c3_amended_saturation_logging_witness :
    (Xmpp.process_xmpp_message fullReqState msgHello =
      ⟨{ fullReqState with clogged_engine := true },
       [XmppEffect.log LogLevel.debug "request",
        XmppEffect.log LogLevel.error "requests channel clogged"], none⟩) ∧
    (ChatbotHandler.handle_request (Except.ok okCompletion) handlerA fullRespCh reqHello =
      ⟨{ handlerA with clogged := true }, fullRespCh,
       [HandlerEffect.completionCall reqHello.request,
        HandlerEffect.log LogLevel.error "responses channel clogged"], none⟩) ∧
    (ChatbotEngine.handle_request true fullChanEngine reqHello =
      (fullChanEngine,
       [EngineEffect.log LogLevel.debug "chat instance requests channel clogged"])) :=
  have h := c3_amended_saturation_logging fullReqState msgHello "a@x" "hello"
    rfl (by decide) rfl rfl rfl rfl (by decide)
    handlerA fullRespCh reqHello okCompletion rfl rfl
    (by simp [fullRespCh])
    fullChanEngine ⟨List.replicate REQUESTS_CHANNEL_SIZE { jid := "a@x", request := "r" }, false⟩
    reqHello true rfl rfl (by simp [REQUESTS_CHANNEL_SIZE])
  ⟨h.1 rfl, h.2.2.1 rfl, h.2.2.2.2⟩

/-- An allow-listed chat message whose default-language body entry is
present but is the empty string. -/
def msgEmptyBody : XmppMessage :=
  { from_ := some "a@x", type_ := MessageType.chat, body := some "",
    payloads := [], id := none }

/-- An allow-listed chat message with a body and an encrypted payload. -/
def msgEncrypted : XmppMessage :=
  { from_ := some "a@x", type_ := MessageType.chat, body := some "hello",
    payloads := ["encrypted"], id := none }

/-- C6 counterexample: a concrete allow-listed chat message whose text
body entry is present but empty is turned into a pipeline request (the
request queue grows by a request with empty text), refuting that a request
is produced only when the message carries a non-empty text body. -/
theorem c6_counterexample :
    (Xmpp.process_xmpp_message sampleState msgEmptyBody).state.request_queue =
      [{ jid := "a@x", request := "" }] ∧ msgEmptyBody.body = some "" := by
  constructor <;> rfl

/-- C6 amended: an inbound message is turned into a pipeline request only
if the sender is allow-listed, the type is chat, a default-language body
entry is present (possibly the empty string) and no encrypted payload is
carried; an allow-listed chat message with a body entry and an encrypted
payload is answered immediately with the fixed unsupported notice, with
unchanged state, no enqueue, no completion involvement and no typing
indicator; any message failing the allow-list, type or body-presence
checks leaves the state unchanged and produces exactly one log entry. -/
theorem c6_amended_classification (s : XmppState) (m : XmppMessage) :
    ((Xmpp.process_xmpp_message s m).state.request_queue ≠ s.request_queue →
      ∃ jid body, m.from_ = some jid ∧ jid ∈ s.allowed_jids ∧
        m.type_ = MessageType.chat ∧ m.body = some body ∧
        "encrypted" ∉ m.payloads) ∧
    (∀ jid body, m.from_ = some jid → jid ∈ s.allowed_jids →
      m.type_ = MessageType.chat → m.body = some body →
      "encrypted" ∈ m.payloads →
      Xmpp.process_xmpp_message s m =
        ⟨s, [XmppEffect.log LogLevel.debug "encrypted message",
             XmppEffect.sendMessage jid "[ERROR] Encrypted messages are not supported"],
         none⟩) ∧
    (∀ jid, m.from_ = some jid →
      (jid ∉ s.allowed_jids ∨ m.type_ ≠ MessageType.chat ∨ m.body = none) →
      (Xmpp.process_xmpp_message s m).state = s ∧
      (∃ lvl tag, (Xmpp.process_xmpp_message s m).effects = [XmppEffect.log lvl tag]) ∧
      (Xmpp.process_xmpp_message s m).failure = none) := by
  refine ⟨?_, ?_, ?_⟩
  · intro hne
    cases hfrom : m.from_ with
    | none => simp [Xmpp.process_xmpp_message, hfrom] at hne
    | some jid =>
      by_cases hmem : jid ∈ s.allowed_jids
      · by_cases htype : m.type_ = MessageType.chat
        · cases hbody : m.body with
          | none => simp [Xmpp.process_xmpp_message, hfrom, hmem, htype, hbody] at hne
          | some body =>
            by_cases henc : "encrypted" ∈ m.payloads
            · simp [Xmpp.process_xmpp_message, hfrom, hmem, htype, hbody, henc] at hne
            · exact ⟨jid, body, rfl, hmem, htype, rfl, henc⟩
        · simp [Xmpp.process_xmpp_message, hfrom, hmem, htype] at hne
      · simp [Xmpp.process_xmpp_message, hfrom, hmem] at hne
  · intro jid body hfrom hmem htype hbody henc
    simp [Xmpp.process_xmpp_message, hfrom, hmem, htype, hbody, henc]
  · intro jid hfrom hcase
    by_cases hmem : jid ∈ s.allowed_jids
    · by_cases htype : m.type_ = MessageType.chat
      · have hbody : m.body = none := by
          rcases hcase with h | h | h
          · exact absurd hmem h
          · exact absurd htype h
          · exact h
        have hproc : Xmpp.process_xmpp_message s m =
            ⟨s, [XmppEffect.log LogLevel.trace "chat message without a body"], none⟩ := by
          simp [Xmpp.process_xmpp_message, hfrom, hmem, htype, hbody]
        exact ⟨by rw [hproc], ⟨LogLevel.trace, "chat message without a body", by rw [hproc]⟩,
               by rw [hproc]⟩
      · have hproc : Xmpp.process_xmpp_message s m =
            ⟨s, [XmppEffect.log LogLevel.warn "not a chat message received"], none⟩ := by
          simp [Xmpp.process_xmpp_message, hfrom, hmem, htype]
        exact ⟨by rw [hproc], ⟨LogLevel.warn, "not a chat message received", by rw [hproc]⟩,
               by rw [hproc]⟩
    · have hproc : Xmpp.process_xmpp_message s m =
          ⟨s, [XmppEffect.log LogLevel.trace "message from unknown user"], none⟩ := by
        simp [Xmpp.process_xmpp_message, hfrom, hmem]
      exact ⟨by rw [hproc], ⟨LogLevel.trace, "message from unknown user", by rw [hproc]⟩,
             by rw [hproc]⟩

/-- Witness for the amended C6 at a concrete encrypted message. -/
theorem c6_amended_classification_witness :
    "encrypted" ∈ msgEncrypted.payloads ∧
    Xmpp.process_xmpp_message sampleState msgEncrypted =
      ⟨sampleState,
       [XmppEffect.log LogLevel.debug "encrypted message",
        XmppEffect.sendMessage "a@x" "[ERROR] Encrypted messages are not supported"],
       none⟩ :=
  ⟨by decide,
   (c6_amended_classification sampleState msgEncrypted).2.1 "a@x" "hello" rfl (by decide)
     rfl rfl (by decide)⟩

/-- A transport session that is offline while one response is waiting in
the responses channel. -/
def offlineWithResp : XmppState :=
  { allowed_jids := ["a@x"], request_queue := [], request_capacity := REQUESTS_CHANNEL_SIZE,
    request_closed := false, response_queue := [respHi], pending_composing := [],
    online := false, clogged_engine := false }

/-- C7 counterexample: at a concrete state holding a response that was
produced while the session was offline, reconnecting to online and polling
the response arm delivers exactly that response: its send effect appears
in the effects of the run, refuting that a response produced during the
offline period is never sent after reconnecting. -/
theorem c7_counterexample :
    offlineWithResp.online = false ∧
    XmppEffect.sendMessage "a@x" "hi" ∈
      (Xmpp.run offlineWithResp [XmppEvent.connected, XmppEvent.responseDelivery]).1 := by
  exact ⟨rfl, by decide⟩

/-- C7 amended: the response arm of the run loop is polled only while
online, so a response available while the session is offline is not sent
then and stays queued in the bounded responses channel; once the session
is online again the arm delivers the head response to its peer. -/
theorem c7_amended_offline_responses_buffered (s : XmppState) (hoff : s.online = false) :
    Xmpp.step s XmppEvent.responseDelivery = ⟨s, [], none⟩ ∧
    (∀ resp rest bare, s.response_queue = resp :: rest →
      bareJid_new resp.jid = some bare →
      Xmpp.step { s with online := true } XmppEvent.responseDelivery =
        ⟨{ s with
             online := true,
             response_queue := rest,
             pending_composing := s.pending_composing.filter (fun j => j ≠ bare) },
         [XmppEffect.log LogLevel.debug "response",
          XmppEffect.sendChatState bare "active",
          XmppEffect.sendMessage bare resp.response],
         none⟩) := by
  constructor
  · simp [Xmpp.step, hoff]
  · intro resp rest bare hq hbare
    simp [Xmpp.step, Xmpp.process_response, hq, hbare]

/-- Witness for the amended C7 at a concrete offline state with a queued
response. -/
theorem c7_amended_offline_responses_buffered_witness :
    offlineWithResp.online = false ∧
    Xmpp.step offlineWithResp XmppEvent.responseDelivery = ⟨offlineWithResp, [], none⟩ ∧
    Xmpp.step { offlineWithResp with online := true } XmppEvent.responseDelivery =
      ⟨{ offlineWithResp with
           online := true,
           response_queue := [],
           pending_composing := offlineWithResp.pending_composing.filter (fun j => j ≠ "a@x") },
       [XmppEffect.log LogLevel.debug "response",
        XmppEffect.sendChatState "a@x" "active",
        XmppEffect.sendMessage "a@x" respHi.response],
       none⟩ :=
  ⟨rfl,
   (c7_amended_offline_responses_buffered offlineWithResp rfl).1,
   (c7_amended_offline_responses_buffered offlineWithResp rfl).2 respHi [] "a@x" rfl rfl⟩

end Jutella
